import Mathlib

/-!
Shallow embedding of the scoring logic of the EcoScore dashboard (src/app.py):
the flexible column finder `find_col`, the packaging recyclability table
`pack_map`, the adjusted-carbon column pipeline, the what-if LCA simulator,
the schema resolution / required-columns check, and (modelled from the spec,
as it is absent from the source file) the comparison selector.

Python floats are modelled as rationals (ℚ); missing values (None / NaN)
as `Option`; Python strings as Lean `String` or, where the character-level
operations strip/lower/substring matter, as lists of characters (`Label`).
-/

/-- Column names are modelled as lists of characters, mirroring the
character-level strip/lower/substring operations of Python strings. -/
abbrev Label := List Char

/-- Conversion from a Lean string literal to a label. -/
def lbl (s : String) : Label := s.data

/-- Whitespace test backing Python str.strip for the inputs in scope. -/
def isSpaceChar (c : Char) : Bool := c = ' ' || c = '\t' || c = '\n' || c = '\r'

/-- Python str.strip: drop leading and trailing whitespace. -/
def trimChars (l : Label) : Label :=
  ((l.dropWhile isSpaceChar).reverse.dropWhile isSpaceChar).reverse

/-- Python str.lower, characterwise. -/
def lowerChars (l : Label) : Label := l.map Char.toLower

/-- Test that the second list is a leading segment of the first. -/
def startsWithChars : Label → Label → Bool
  | _, [] => true
  | [], _ :: _ => false
  | a :: as, b :: bs => (a == b) && startsWithChars as bs

/-- Python substring containment: needle occurs contiguously inside hay
(the empty needle occurs in every hay, as in Python). -/
def substrOccurs : Label → Label → Bool
  | [], needle => needle.isEmpty
  | a :: t, needle => startsWithChars (a :: t) needle || substrOccurs t needle

/-- Lookup in the dict low_map built by the comprehension over cols in
find_col (app.py line 17): later insertions overwrite earlier ones, so the
last column with the given lowercased form wins. -/
def low_map_find (cols : List Label) (key : Label) : Option Label :=
  (cols.filter (fun c => lowerChars c == key)).getLast?

/-- Exact tier of find_col (app.py lines 18-21): candidates in caller order,
each trimmed and lowercased, looked up in low_map; first hit wins. -/
def exact_pass (columns candidates : List Label) : Option Label :=
  candidates.findSome? (fun cand =>
    low_map_find (columns.map trimChars) (lowerChars (trimChars cand)))

/-- Substring tier of find_col (app.py lines 22-27): candidates in caller
order; for each, the first column whose lowercased form contains the trimmed
lowercased candidate. -/
def substr_pass (columns candidates : List Label) : Option Label :=
  candidates.findSome? (fun cand =>
    (columns.map trimChars).find? (fun c =>
      substrOccurs (lowerChars c) (lowerChars (trimChars cand))))

/-- find_col from app.py lines 15-28: exact (trimmed, case-insensitive) match
first, then substring match, None when neither tier matches. -/
def find_col (columns candidates : List Label) : Option Label :=
  match exact_pass columns candidates with
  | some c => some c
  | none => substr_pass columns candidates

/-- pack_map from app.py lines 100-113: packaging material to recyclability
score. -/
def pack_map : List (String × ℚ) :=
  [("Plastic", 40), ("Recycled Plastic", 65), ("Glass", 90), ("Aluminum", 85),
   ("Paper", 88), ("Cardboard", 88), ("Bioplastic", 70), ("Pump Bottle", 50),
   ("Aerosol Can", 30), ("Refill Pouch", 80), ("Tube", 45), ("Unknown", 60)]

/-- Python pack_map.get(s, 60) (app.py lines 116 and 290): table lookup with
default 60. -/
def recyclability_lookup (s : String) : ℚ := (pack_map.lookup s).getD 60

/-- Inputs of one run of the what-if simulator (app.py lines 269-314):
the selected row's EcoScore (None/NaN as `none`), its adjusted carbon,
its stored recyclability score, its country emission factor, the chosen new
packaging material, the emission factor of the chosen new country, and the
manual multiplier from the tweak slider. -/
structure SimInput where
  base_eco : Option ℚ
  base_carbon : ℚ
  base_recycle : ℚ
  base_factor : ℚ
  new_pack : String
  new_factor : ℚ
  tweak : ℚ

/-- Packaging effect heuristic (app.py lines 298-299): (100 - r) / 100. -/
def pack_effect (r : ℚ) : ℚ := (100 - r) / 100

/-- raw_base (app.py line 302): strip the country factor from the adjusted
carbon, unless the factor is falsy (0), in which case the adjusted value is
used as-is. -/
def sim_raw_base (s : SimInput) : ℚ :=
  if s.base_factor = 0 then s.base_carbon else s.base_carbon / s.base_factor

/-- raw_new (app.py line 304): scale by the ratio of packaging effects, with
the ratio replaced by 1.0 when the base packaging effect is 0. -/
def sim_raw_new (s : SimInput) : ℚ :=
  sim_raw_base s *
    (if pack_effect s.base_recycle = 0 then 1
     else pack_effect (recyclability_lookup s.new_pack) / pack_effect s.base_recycle)

/-- new_carbon (app.py lines 305-308): apply the new country factor and the
tweak multiplier, then clamp below at 0. -/
def sim_new_carbon (s : SimInput) : ℚ :=
  if sim_raw_new s * s.new_factor * s.tweak < 0 then 0
  else sim_raw_new s * s.new_factor * s.tweak

/-- eco_delta (app.py line 311): recyclability gain times 0.15 minus carbon
gain times 0.02. -/
def sim_eco_delta (s : SimInput) : ℚ :=
  (recyclability_lookup s.new_pack - s.base_recycle) * (15 / 100)
    - (sim_new_carbon s - s.base_carbon) * (2 / 100)

/-- sim_ecoscore (app.py lines 312-314): None when the base EcoScore is
missing, otherwise the base score plus eco_delta clamped into [0, 100]. -/
def sim_ecoscore (s : SimInput) : Option ℚ :=
  s.base_eco.map (fun e => min 100 (max 0 (e + sim_eco_delta s)))

/-- Result pair reported by the simulator (app.py lines 316-319): the new
adjusted carbon is always shown, the simulated EcoScore only when present. -/
def simulate (s : SimInput) : ℚ × Option ℚ := (sim_new_carbon s, sim_ecoscore s)

/-- Round half to even to an integer, modelling the rounding used by the
dataframe's round on the values in scope. -/
def roundHalfEven (x : ℚ) : ℤ :=
  if x - ⌊x⌋ < 1 / 2 then ⌊x⌋
  else if 1 / 2 < x - ⌊x⌋ then ⌊x⌋ + 1
  else if ⌊x⌋ % 2 = 0 then ⌊x⌋ else ⌊x⌋ + 1

/-- Rounding to one decimal place, as in .round(1) (app.py line 132). -/
def round1 (x : ℚ) : ℚ := (roundHalfEven (x * 10) : ℚ) / 10

/-- Per-row inputs of the adjusted-carbon pipeline: the raw carbon value
(None for NaN), the value of an Adj_Carbon_Intensity column when the input
table has one (None for NaN), and the country emission factor. -/
structure CarbonRow where
  carbon : Option ℚ
  adjGiven : Option ℚ
  factor : ℚ

/-- Adjusted-carbon column pipeline (app.py lines 89-95 and 130-132).
When the input table supplies an Adj_Carbon_Intensity column (adjPresent),
its coerced values are kept; otherwise the column is created as a copy of the
raw carbon column. Afterwards, only when the resulting column is entirely
null is it recomputed as raw carbon times the country emission factor,
rounded to one decimal. -/
def adjColumn (adjPresent : Bool) (rows : List CarbonRow) : List (Option ℚ) :=
  let adj0 := if adjPresent then rows.map (fun r => r.adjGiven)
              else rows.map (fun r => r.carbon)
  if adj0.all Option.isNone then
    rows.map (fun r => r.carbon.map (fun c => round1 (c * r.factor)))
  else adj0

/-- Modelled from the spec: product records as consumed by the Comparison
Selector of spec section 4.3, which is absent from src/app.py (the source
file only renders a side-by-side table for two chosen products). -/
structure PRecord where
  name : String
  eco : ℚ
  carbon : ℚ
  price : Option ℚ
deriving DecidableEq

/-- Modelled from the spec: pick the extreme record of a non-empty list under
a strict betterness test, ties broken by first occurrence in input order. -/
def pickBest (better : PRecord → PRecord → Bool) : List PRecord → Option PRecord
  | [] => none
  | r :: rs => some (rs.foldl (fun b x => if better x b then x else b) r)

/-- Modelled from the spec: best_eco, the record with maximum eco_score. -/
def best_eco (rs : List PRecord) : Option PRecord :=
  pickBest (fun x b => decide (b.eco < x.eco)) rs

/-- Modelled from the spec: lowest_carbon, the record with minimum
carbon_intensity. -/
def lowest_carbon (rs : List PRecord) : Option PRecord :=
  pickBest (fun x b => decide (x.carbon < b.carbon)) rs

/-- Modelled from the spec: best_value, the record maximizing
eco_score / price; unavailable when any selected record has price 0 or
missing. -/
def best_value (rs : List PRecord) : Option PRecord :=
  if ∃ r ∈ rs, r.price = none ∨ r.price = some 0 then none
  else pickBest (fun x b => decide (b.eco / b.price.getD 1 < x.eco / x.price.getD 1)) rs

/-- Candidate aliases for the product column (app.py line 48). -/
def product_cands : List Label := [lbl "Product", lbl "product", lbl "Product Name"]

/-- Candidate aliases for the category column (app.py line 49). -/
def category_cands : List Label := [lbl "Category", lbl "category"]

/-- Candidate aliases for the price column (app.py line 50). -/
def price_cands : List Label :=
  [lbl "Price_USD", lbl "Price", lbl "Price (USD)", lbl "price_usd"]

/-- Candidate aliases for the EcoScore column (app.py line 51). -/
def ecoscore_cands : List Label := [lbl "EcoScore", lbl "ecoscore"]

/-- Candidate aliases for the carbon column (app.py line 52). -/
def carbon_cands : List Label :=
  [lbl "Carbon_Intensity_gCO2e", lbl "Adj_Carbon_Intensity",
   lbl "Carbon_Intensity", lbl "carbon"]

/-- Candidate aliases for the packaging column (app.py line 53). -/
def pack_cands : List Label :=
  [lbl "Packaging", lbl "Packaging_Type", lbl "Packaging Type"]

/-- Candidate aliases for the ingredients column (app.py line 54). -/
def ing_cands : List Label := [lbl "Main_Ingredients", lbl "Ingredients"]

/-- Candidate aliases for the country column (app.py line 55). -/
def country_cands : List Label := [lbl "Country", lbl "country"]

/-- Candidate aliases for the recyclability column (app.py line 56). -/
def recycle_cands : List Label := [lbl "Recyclability_Score", lbl "Recyclability"]

/-- Detected (possibly unresolved) columns, app.py lines 48-56. -/
structure DetectedCols where
  product : Option Label
  category : Option Label
  price : Option Label
  ecoscore : Option Label
  carbon : Option Label
  pack : Option Label
  ing : Option Label
  country : Option Label
  recycle : Option Label

/-- Column detection pass (app.py lines 48-56). -/
def detectCols (columns : List Label) : DetectedCols where
  product := find_col columns product_cands
  category := find_col columns category_cands
  price := find_col columns price_cands
  ecoscore := find_col columns ecoscore_cands
  carbon := find_col columns carbon_cands
  pack := find_col columns pack_cands
  ing := find_col columns ing_cands
  country := find_col columns country_cands
  recycle := find_col columns recycle_cands

/-- Resolved schema after the required-columns check and the defaulting of
unresolved optional columns (app.py lines 58-87): product and category are
mandatory; packaging, ingredients, country and recyclability fall back to
freshly created default columns; price, EcoScore and carbon stay optional. -/
structure Schema where
  product : Label
  category : Label
  price : Option Label
  ecoscore : Option Label
  carbon : Option Label
  pack : Label
  ing : Label
  country : Label
  recycle : Label
deriving DecidableEq

/-- Message of the required-columns error (app.py line 61; the listing of the
found columns appended in the source message is elided). -/
def schema_error_msg : String :=
  "CSV must include Product and Category columns (or similar)."

/-- Schema resolution (app.py lines 48-87): error out when product or
category is unresolved, otherwise default the unresolved optional columns. -/
def resolveSchema (columns : List Label) : Except String Schema :=
  let d := detectCols columns
  match d.product, d.category with
  | some p, some c =>
      Except.ok
        { product := p, category := c, price := d.price,
          ecoscore := d.ecoscore, carbon := d.carbon,
          pack := d.pack.getD (lbl "Packaging"),
          ing := d.ing.getD (lbl "Main_Ingredients"),
          country := d.country.getD (lbl "Country"),
          recycle := d.recycle.getD (lbl "Recyclability_Score") }
  | _, _ => Except.error schema_error_msg

/-- Python row.get("Country_Emission_Factor", 1.0) (app.py line 292): a
missing factor defaults to 1.0. -/
def country_factor_get (v : Option ℚ) : ℚ := v.getD 1

/-- C5: the recyclability lookup is total on strings: every input either hits
an entry of the fixed pack_map table and returns its score, or misses every
entry and returns the default 60; the twelve table entries map to their
listed scores, "Plastic" to 40 and the unmapped "Mystery Material" to 60. -/
theorem recyclability_lookup_total :
    (∀ s : String,
      (∃ p ∈ pack_map, p.1 = s ∧ recyclability_lookup s = p.2) ∨
      (recyclability_lookup s = 60 ∧ ∀ p ∈ pack_map, p.1 ≠ s)) ∧
    recyclability_lookup "Plastic" = 40 ∧
    recyclability_lookup "Recycled Plastic" = 65 ∧
    recyclability_lookup "Glass" = 90 ∧
    recyclability_lookup "Aluminum" = 85 ∧
    recyclability_lookup "Paper" = 88 ∧
    recyclability_lookup "Cardboard" = 88 ∧
    recyclability_lookup "Bioplastic" = 70 ∧
    recyclability_lookup "Pump Bottle" = 50 ∧
    recyclability_lookup "Aerosol Can" = 30 ∧
    recyclability_lookup "Refill Pouch" = 80 ∧
    recyclability_lookup "Tube" = 45 ∧
    recyclability_lookup "Unknown" = 60 ∧
    recyclability_lookup "Mystery Material" = 60 := by
  constructor
  · intro s
    cases h : pack_map.lookup s with
    | none =>
      refine Or.inr ⟨by simp [recyclability_lookup, h], ?_⟩
      intro p hp
      have hbn := List.lookup_eq_none_iff.mp h p hp
      intro hps
      rw [hps] at hbn
      simp at hbn
    | some v =>
      obtain ⟨l₁, l₂, hdec, -⟩ := List.lookup_eq_some_iff.mp h
      refine Or.inl ⟨(s, v), ?_, rfl, by simp [recyclability_lookup, h]⟩
      rw [hdec]
      exact List.mem_append_right _ (List.mem_cons_self _ _)
  · decide

/-- C7: when the base record's EcoScore is missing (None or NaN), the
simulator reports the simulated EcoScore as unavailable rather than
defaulting it, while still reporting the simulated carbon intensity, which
does not depend on the EcoScore at all. -/
theorem simulate_missing_eco_unavailable (c br bf : ℚ) (np : String) (nf tw : ℚ) :
    simulate ⟨none, c, br, bf, np, nf, tw⟩ =
      (sim_new_carbon ⟨none, c, br, bf, np, nf, tw⟩, none) ∧
    ∀ e : ℚ, sim_new_carbon ⟨none, c, br, bf, np, nf, tw⟩ =
      sim_new_carbon ⟨some e, c, br, bf, np, nf, tw⟩ :=
  ⟨rfl, fun _ => rfl⟩

/-- C8: when the base packaging effect (100 - old recyclability) / 100 is 0,
which happens exactly at old recyclability 100, the packaging ratio is
replaced by 1.0, so raw_new equals raw_base and the division by the zero
packaging effect is never taken. -/
theorem sim_raw_new_zero_pack_effect (s : SimInput) (h : s.base_recycle = 100) :
    pack_effect s.base_recycle = 0 ∧ sim_raw_new s = sim_raw_base s := by
  have hpe : pack_effect s.base_recycle = 0 := by
    rw [h]; norm_num [pack_effect]
  exact ⟨hpe, by simp [sim_raw_new, hpe]⟩

/-- Witness for C8 at a record with recyclability 100. -/
theorem sim_raw_new_zero_pack_effect_witness :
    pack_effect (100 : ℚ) = 0 ∧
    sim_raw_new ⟨none, 100, 100, 1, "Plastic", 1, 1⟩ =
      sim_raw_base ⟨none, 100, 100, 1, "Plastic", 1, 1⟩ :=
  sim_raw_new_zero_pack_effect ⟨none, 100, 100, 1, "Plastic", 1, 1⟩ rfl

/-- C10: when the base country emission factor is falsy (0), raw_base is
taken to be the adjusted carbon value itself instead of a quotient, and the
same value results when the factor field is missing (defaulted to 1.0), so
the baseline recovery never divides by zero. -/
theorem sim_raw_base_falsy_factor (eco : Option ℚ) (c br : ℚ) (np : String)
    (nf tw : ℚ) :
    sim_raw_base ⟨eco, c, br, 0, np, nf, tw⟩ = c ∧
    sim_raw_base ⟨eco, c, br, country_factor_get none, np, nf, tw⟩ = c := by
  constructor
  · simp [sim_raw_base]
  · norm_num [sim_raw_base, country_factor_get]

/-- C4: for every base record with a present EcoScore and any simulation
choice, the simulated EcoScore equals the base score plus eco_delta clamped
into [0, 100], hence always lies in [0, 100] even when the raw sum falls
outside that range. -/
theorem sim_ecoscore_clamped (s : SimInput) (e : ℚ)
    (heco : s.base_eco = some e)
    (ht1 : 1 / 2 ≤ s.tweak) (ht2 : s.tweak ≤ 2) :
    sim_ecoscore s = some (min 100 (max 0 (e + sim_eco_delta s))) ∧
    0 ≤ min 100 (max 0 (e + sim_eco_delta s)) ∧
    min 100 (max 0 (e + sim_eco_delta s)) ≤ 100 :=
  ⟨by simp [sim_ecoscore, heco], le_min (by norm_num) (le_max_left 0 _),
    min_le_left _ _⟩

/-- Witness for C4 at a base EcoScore of 150, where the clamp is active. -/
theorem sim_ecoscore_clamped_witness :
    sim_ecoscore ⟨some 150, 100, 40, 1, "Plastic", 1, 1⟩ =
      some (min 100 (max 0
        (150 + sim_eco_delta ⟨some 150, 100, 40, 1, "Plastic", 1, 1⟩))) ∧
    0 ≤ min 100 (max 0
        (150 + sim_eco_delta ⟨some 150, 100, 40, 1, "Plastic", 1, 1⟩)) ∧
    min 100 (max 0
        (150 + sim_eco_delta ⟨some 150, 100, 40, 1, "Plastic", 1, 1⟩)) ≤ 100 :=
  sim_ecoscore_clamped _ 150 rfl (by norm_num) (by norm_num)

/-- C1: whenever some candidate alias has a trimmed case-insensitive exact
match among the column labels, find_col answers from the exact tier (so the
substring tier is never consulted) and returns a trimmed column whose
lowercased form equals the trimmed lowercased form of some candidate; the
exact tier scans candidates in caller-supplied order, first hit winning, as
its findSome? formulation states. -/
theorem find_col_exact_match_wins (columns candidates : List Label)
    (h : ∃ cand ∈ candidates, ∃ col ∈ columns,
      lowerChars (trimChars col) = lowerChars (trimChars cand)) :
    find_col columns candidates = exact_pass columns candidates ∧
    ∃ r, find_col columns candidates = some r ∧ r ∈ columns.map trimChars ∧
      ∃ cand ∈ candidates, lowerChars r = lowerChars (trimChars cand) := by
  obtain ⟨cand, hcand, col, hcol, heq⟩ := h
  have hsome : (exact_pass columns candidates).isSome = true := by
    rw [exact_pass, List.findSome?_isSome_iff]
    refine ⟨cand, hcand, ?_⟩
    rw [low_map_find, Option.isSome_iff_ne_none, ne_eq, List.getLast?_eq_none_iff]
    intro hnil
    have hmem : trimChars col ∈ (columns.map trimChars).filter
        (fun c => lowerChars c == lowerChars (trimChars cand)) := by
      rw [List.mem_filter]
      exact ⟨List.mem_map_of_mem _ hcol, by simp [heq]⟩
    rw [hnil] at hmem
    exact absurd hmem (List.not_mem_nil _)
  obtain ⟨r, hr⟩ := Option.isSome_iff_exists.mp hsome
  have hfind : find_col columns candidates = exact_pass columns candidates := by
    rw [find_col, hr]
  refine ⟨hfind, r, by rw [hfind, hr], ?_, ?_⟩
  case _ =>
    rw [exact_pass] at hr
    obtain ⟨cand2, hc2, hlk⟩ := List.exists_of_findSome?_eq_some hr
    rw [low_map_find] at hlk
    have := List.mem_of_getLast?_eq_some hlk
    exact (List.mem_filter.mp this).1
  case _ =>
    rw [exact_pass] at hr
    obtain ⟨cand2, hc2, hlk⟩ := List.exists_of_findSome?_eq_some hr
    rw [low_map_find] at hlk
    have hmf := List.mem_filter.mp (List.mem_of_getLast?_eq_some hlk)
    exact ⟨cand2, hc2, by simpa using hmf.2⟩

/-- Witness for C1: the column " Product " exactly matches the candidate
"product" after trimming and lowercasing, and find_col returns it. -/
theorem find_col_exact_match_wins_witness :
    (∃ cand ∈ [lbl "product"], ∃ col ∈ [lbl " Product "],
      lowerChars (trimChars col) = lowerChars (trimChars cand)) ∧
    (find_col [lbl " Product "] [lbl "product"] =
        exact_pass [lbl " Product "] [lbl "product"] ∧
      ∃ r, find_col [lbl " Product "] [lbl "product"] = some r ∧
        r ∈ [lbl " Product "].map trimChars ∧
        ∃ cand ∈ [lbl "product"], lowerChars r = lowerChars (trimChars cand)) :=
  have hh : ∃ cand ∈ [lbl "product"], ∃ col ∈ [lbl " Product "],
      lowerChars (trimChars col) = lowerChars (trimChars cand) := by decide
  ⟨hh, find_col_exact_match_wins _ _ hh⟩

/-- C2 counterexample: a record with raw carbon 100 and country factor 3/5
(France) in a table that supplies no Adj_Carbon_Intensity column keeps an
adjusted carbon of 100, although raw times factor is 60: the program only
multiplies by the factor when the adjusted column is entirely null. -/
theorem adj_carbon_not_raw_times_factor :
    adjColumn false [⟨some 100, none, 3 / 5⟩] = [some 100] ∧
    (100 : ℚ) ≠ 100 * (3 / 5) := by
  constructor
  · rfl
  · norm_num

/-- C2 amended: when the input table supplies no Adj_Carbon_Intensity column
and the raw carbon column is not entirely null, the adjusted carbon of every
record equals its raw carbon unchanged; only when the table supplies an
adjusted column that is entirely null is the adjusted carbon recomputed as
raw carbon times the country emission factor, rounded to one decimal. -/
theorem adjColumn_copy_or_product (rows : List CarbonRow) :
    ((∃ r ∈ rows, r.carbon.isSome = true) →
      adjColumn false rows = rows.map (fun r => r.carbon)) ∧
    ((∀ r ∈ rows, r.adjGiven = none) →
      adjColumn true rows =
        rows.map (fun r => r.carbon.map (fun c => round1 (c * r.factor)))) := by
  constructor
  · rintro ⟨r, hr, hs⟩
    have hne : ((rows.map (fun r => r.carbon)).all Option.isNone) = false := by
      rw [List.all_eq_false]
      refine ⟨r.carbon, List.mem_map_of_mem _ hr, ?_⟩
      cases hc : r.carbon with
      | none => rw [hc] at hs; simp at hs
      | some v => simp
    simp [adjColumn, hne]
  · intro h
    have hall : ((rows.map (fun r => r.adjGiven)).all Option.isNone) = true := by
      rw [List.all_eq_true]
      rintro x hx
      obtain ⟨r, hr, rfl⟩ := List.mem_map.mp hx
      simp [h r hr]
    simp [adjColumn, hall]

/-- Witness for C2 amended: one record with raw carbon 100 and factor 3/5;
without a supplied adjusted column the value stays 100, with an all-null
supplied adjusted column it becomes round1(100 * 3/5) = 60. -/
theorem adjColumn_copy_or_product_witness :
    adjColumn false [⟨some 100, none, 3 / 5⟩] = [some 100] ∧
    adjColumn true [⟨some 100, none, 3 / 5⟩] = [some 60] := by
  constructor
  · exact (adjColumn_copy_or_product _).1 ⟨⟨some 100, none, 3 / 5⟩, by simp, rfl⟩
  · calc adjColumn true [⟨some 100, none, 3 / 5⟩]
        = [some (round1 (100 * (3 / 5)))] :=
          (adjColumn_copy_or_product _).2 (by simp)
      _ = [some 60] := by norm_num [round1, roundHalfEven]

/-- C3 counterexample: a base record whose stored recyclability (70) differs
from the pack_map value of its packaging ("Plastic", 40) does not reproduce
its baseline under the identity simulation: with eco 50, carbon 100, factor
1, same packaging, same country and tweak 1, the simulator yields carbon 200
and EcoScore 43.5 instead of (100, 50). -/
theorem simulate_identity_cex :
    simulate ⟨some 50, 100, 70, 1, "Plastic", 1, 1⟩ ≠ ((100 : ℚ), some (50 : ℚ)) := by
  have h : sim_new_carbon ⟨some 50, 100, 70, 1, "Plastic", 1, 1⟩ = 200 := by
    norm_num [sim_new_carbon, sim_raw_new, sim_raw_base, pack_effect,
      recyclability_lookup, pack_map, List.lookup]
  simp [simulate, Prod.ext_iff, h]

/-- C3 amended: for every valid base record (EcoScore present and within
[0, 100], carbon nonnegative, nonzero country factor) whose stored
recyclability agrees with the pack_map value of its packaging, simulating
with the same packaging, the same country factor and tweak 1 reproduces the
base adjusted carbon and the base EcoScore exactly. -/
theorem simulate_identity (s : SimInput) (e : ℚ)
    (heco : s.base_eco = some e) (he0 : 0 ≤ e) (he1 : e ≤ 100)
    (hf : s.base_factor ≠ 0)
    (hr : s.base_recycle = recyclability_lookup s.new_pack)
    (hnf : s.new_factor = s.base_factor)
    (ht : s.tweak = 1)
    (hc : 0 ≤ s.base_carbon) :
    simulate s = (s.base_carbon, some e) := by
  have hrb : sim_raw_base s = s.base_carbon / s.base_factor := by
    rw [sim_raw_base, if_neg hf]
  have hrn : sim_raw_new s = sim_raw_base s := by
    rw [sim_raw_new]
    by_cases h0 : pack_effect s.base_recycle = 0
    · rw [if_pos h0, mul_one]
    · rw [if_neg h0, ← hr, div_self h0, mul_one]
  have hnc : sim_new_carbon s = s.base_carbon := by
    rw [sim_new_carbon, hrn, hrb, hnf, ht, mul_one, div_mul_cancel₀ _ hf,
      if_neg (not_lt.mpr hc)]
  have hdelta : sim_eco_delta s = 0 := by
    rw [sim_eco_delta, hnc, ← hr]
    ring
  have hsim : sim_ecoscore s = some e := by
    rw [sim_ecoscore, heco, Option.map_some', hdelta, add_zero,
      max_eq_right he0, min_eq_right he1]
  simp only [simulate, hnc, hsim]

/-- Witness for C3 amended: a Plastic record with matching recyclability 40,
eco 50, carbon 100 and factor 1 reproduces (100, 50) under the identity
simulation. -/
theorem simulate_identity_witness :
    simulate ⟨some 50, 100, 40, 1, "Plastic", 1, 1⟩ = (100, some 50) :=
  simulate_identity _ 50 rfl (by norm_num) (by norm_num) (by norm_num)
    (by decide) rfl rfl (by norm_num)

/-- Record A of the literal comparison example of spec section 8. -/
def recA : PRecord := ⟨"A", 90, 50, some 10⟩

/-- Record B of the literal comparison example of spec section 8. -/
def recB : PRecord := ⟨"B", 70, 20, some 5⟩

/-- C6: on the literal records A (eco 90, carbon 50, price 10) and B (eco 70,
carbon 20, price 5), the comparison selector picks A as best_eco (maximum
eco_score), B as lowest_carbon (minimum carbon_intensity) and B as
best_value, since 70 / 5 = 14 exceeds 90 / 10 = 9. -/
theorem comparison_selector_example :
    best_eco [recA, recB] = some recA ∧
    lowest_carbon [recA, recB] = some recB ∧
    best_value [recA, recB] = some recB := by
  refine ⟨?_, ?_, ?_⟩
  · norm_num [best_eco, pickBest, recA, recB]
  · norm_num [lowest_carbon, pickBest, recA, recB]
  · norm_num [best_value, pickBest, recA, recB]
    rintro (h | h) <;> simp at h

/-- C9: the schema resolution errors out with the descriptive required-columns
message exactly when the product or the category column is unresolved, and
otherwise succeeds, carrying the unresolved optional columns either as absent
(price, EcoScore, carbon) or replaced by the freshly created default columns
(packaging, ingredients, country, recyclability). -/
theorem resolveSchema_required_check (columns : List Label) :
    (((detectCols columns).product = none ∨ (detectCols columns).category = none) →
      resolveSchema columns = Except.error schema_error_msg) ∧
    (∀ p c, (detectCols columns).product = some p →
      (detectCols columns).category = some c →
      resolveSchema columns = Except.ok
        { product := p, category := c,
          price := (detectCols columns).price,
          ecoscore := (detectCols columns).ecoscore,
          carbon := (detectCols columns).carbon,
          pack := ((detectCols columns).pack).getD (lbl "Packaging"),
          ing := ((detectCols columns).ing).getD (lbl "Main_Ingredients"),
          country := ((detectCols columns).country).getD (lbl "Country"),
          recycle := ((detectCols columns).recycle).getD (lbl "Recyclability_Score") }) := by
  constructor
  · intro h
    cases hp : (detectCols columns).product with
    | none =>
      cases hc : (detectCols columns).category <;> simp [resolveSchema, hp, hc]
    | some p =>
      cases hc : (detectCols columns).category with
      | none => simp [resolveSchema, hp, hc]
      | some c => simp [hp, hc] at h
  · intro p c hp hc
    simp [resolveSchema, hp, hc]

/-- Witness for C9: a table with only a Foo column is rejected with the
schema error; a table with Product, Category and Packaging_Type columns
resolves, defaulting the missing optional columns. -/
theorem resolveSchema_required_check_witness :
    resolveSchema [lbl "Foo"] = Except.error schema_error_msg ∧
    resolveSchema [lbl "Product", lbl "Category", lbl "Packaging_Type"] =
      Except.ok
        { product := lbl "Product", category := lbl "Category",
          price := none, ecoscore := none, carbon := none,
          pack := lbl "Packaging_Type", ing := lbl "Main_Ingredients",
          country := lbl "Country", recycle := lbl "Recyclability_Score" } := by
  constructor
  · exact (resolveSchema_required_check _).1 (Or.inl (by decide))
  · exact (resolveSchema_required_check _).2 (lbl "Product") (lbl "Category")
      (by decide) (by decide)
